import Mathlib

/-!
Shallow embedding of `containers.py`, a container/database lifecycle command
dispatcher for a two-service (db + backend) development stack.

Modelling conventions:
* External collaborators (compose descriptor, container runtime, database
  tools run via `exec_run`, local filesystem) are packaged in an `Env` record
  of oracle functions, fixed for one invocation.
* Every side-effecting operation is recorded as an `Effect` in a trace, in
  program order.  Fallible Python functions return
  `List Effect × Except PyError α`: the effects performed before returning or
  before an uncaught exception, together with the result.
* `get_container` returns `False` when the name is not declared in the
  compose descriptor and `None` when the runtime has no such container;
  both are falsy.  Calling a container method on such a value raises
  `AttributeError`, modelled by `PyError.attributeError` naming the method.
* `sys.argv` is modelled as the argument list after the script name, so
  `sys.argv[i]` is `args[i-1]` and `len(sys.argv) = args.length + 1`.
  Accessing `sys.argv[2]` when it is absent raises `PyError.indexError`.
* The startup guard (`.env` / `compose.yaml` existence, dotenv loading,
  `docker.from_env()`) is the precondition for `main` being modelled at all;
  `create_archive` builds an in-memory tar and performs no modelled effect,
  so `copy_to_container` contributes only the `put_archive` runtime call.
-/

/-- A container handle as returned by the runtime: its name and the status
string found at `attrs["State"]["Status"]`. -/
structure Container where
  cname : String
  status : String
deriving DecidableEq, Repr

/-- Result of `get_container`: `notDeclared` models the Python `False`,
`notFound` models `None`, `found` a real handle. -/
inductive Lookup where
  | notDeclared : Lookup
  | notFound : Lookup
  | found : Container → Lookup
deriving DecidableEq, Repr

/-- One observable side effect of the tool, in program order. -/
inductive Effect where
  | print : String → Effect
  | execRun : String → String → Effect
  | putArchive : String → String → String → Effect
  | start : String → Effect
  | stop : String → Effect
  | writeFile : String → List Nat → Effect
  | removeFile : String → Effect
  | subprocess : String → Effect
deriving DecidableEq, Repr

/-- Uncaught Python exceptions the embedded code can raise. -/
inductive PyError where
  | attributeError : String → PyError
  | indexError : PyError
deriving DecidableEq, Repr

/-- The external world fixed for one invocation: declared compose services,
the runtime's containers, the exit code and captured output of each
`exec_run`, the local filesystem, the two glob results used by
`delete_migrations`, and the database credentials actually used. -/
structure Env where
  services : List String
  runtime : String → Option Container
  execRes : String → String → Nat × List Nat
  isfile : String → Bool
  migrationPy : List String
  migrationPyc : List String
  dbUser : String
  dbName : String

def db_container_name : String := "db"

def django_container_name : String := "backend"

/-- Command string of `pg_dump -Fc -U {DB_USER} {DB_NAME}`. -/
def pg_dump_cmd (env : Env) : String :=
  let u := env.dbUser
  let n := env.dbName
  s!"pg_dump -Fc -U {u} {n}"

/-- Command string of `pg_restore --clean --create -U {DB_USER} -d postgres /tmp/{dump_filename}`. -/
def pg_restore_cmd (env : Env) (dump_filename : String) : String :=
  let u := env.dbUser
  s!"pg_restore --clean --create -U {u} -d postgres /tmp/{dump_filename}"

/-- Command string of `createdb -U {DB_USER} {DB_NAME}`. -/
def createdb_cmd (env : Env) : String :=
  let u := env.dbUser
  let n := env.dbName
  s!"createdb -U {u} {n}"

/-- Command string of `dropdb -U {DB_USER} {DB_NAME}`. -/
def dropdb_cmd (env : Env) : String :=
  let u := env.dbUser
  let n := env.dbName
  s!"dropdb -U {u} {n}"

/-- `get_container`: `False` if the name is not a declared service, else the
runtime lookup, with `docker.errors.NotFound` caught and turned into `None`. -/
def get_container (env : Env) (container_name : String) : Lookup :=
  if env.services.contains container_name = false then
    Lookup.notDeclared
  else
    match env.runtime container_name with
    | some c => Lookup.found c
    | none => Lookup.notFound

/-- `is_running`: falsy lookup gives `False`, else the status is compared
with the string `running`. -/
def is_running (env : Env) (container_name : String) : Bool :=
  match get_container env container_name with
  | Lookup.found c => c.status == "running"
  | _ => false

/-- `are_containers_running`: every declared compose service must be running. -/
def are_containers_running (env : Env) : Bool :=
  env.services.all (fun c => is_running env c)

/-- `start_container`: falsy lookup prints the impossibility message and
returns `False`; otherwise the container is started. -/
def start_container (env : Env) (container_name : String) : List Effect × Bool :=
  match get_container env container_name with
  | Lookup.found c =>
      ([Effect.print s!"Starting \"{container_name}\" container...",
        Effect.start c.cname,
        Effect.print s!"\"{container_name}\" container started    "], true)
  | _ =>
      ([Effect.print s!"Impossible to start \"{container_name}\" container: container not found"],
       false)

/-- `stop_container`: falsy lookup prints the impossibility message and
returns `False`; otherwise the container is stopped. -/
def stop_container (env : Env) (container_name : String) : List Effect × Bool :=
  match get_container env container_name with
  | Lookup.found c =>
      ([Effect.print s!"Stopping \"{container_name}\" container...",
        Effect.stop c.cname,
        Effect.print s!"\"{container_name}\" container stopped    "], true)
  | _ =>
      ([Effect.print s!"Impossible to stop \"{container_name}\" container: container not found"],
       false)

/-- Whether the first char list is an initial segment of the second. -/
def charListBeginsWith : List Char → List Char → Bool
  | [], _ => true
  | _ :: _, [] => false
  | p :: ps, c :: cs => p == c && charListBeginsWith ps cs

/-- Whether the pattern occurs as a contiguous run inside the char list. -/
def charListHasSub (pat : List Char) : List Char → Bool
  | [] => charListBeginsWith pat []
  | c :: cs => charListBeginsWith pat (c :: cs) || charListHasSub pat cs

/-- Substring test used for `'__init__.py' not in x`. -/
def strContains (s pat : String) : Bool :=
  charListHasSub pat.data s.data

/-- The files `delete_migrations` removes: every `backend/*/migrations/*.py`
glob match not containing `__init__.py`, then every
`backend/*/migrations/*.pyc` glob match. -/
def migration_files (env : Env) : List String :=
  env.migrationPy.filter (fun x => strContains x "__init__.py" = false)
    ++ env.migrationPyc

/-- `delete_migrations`: `os.remove` on each matched file, in glob order. -/
def delete_migrations (env : Env) : List Effect :=
  (migration_files env).map Effect.removeFile

/-- `django_migrate`: the two framework migration subprocesses. -/
def django_migrate : List Effect :=
  [Effect.subprocess "docker exec -it backend /app/manage.py makemigrations",
   Effect.subprocess "docker exec -it backend /app/manage.py migrate"]

/-- `copy_to_container`: the tar archive is built in memory, so the only
modelled effect is the `put_archive` runtime call. -/
def copy_to_container (c : Container) (artifact_file : String) (path : String) : List Effect :=
  [Effect.putArchive c.cname path artifact_file]

/-- `dump_db`: exec `pg_dump` in the db container; on non-zero exit report
the error and return `False`; otherwise write the captured bytes to
`dump_filename` and return `True`.  The Python default argument `db.dump`
is supplied explicitly at the call site in `main`.  A falsy db lookup
raises `AttributeError` at the `exec_run` call, after the first print. -/
def dump_db (env : Env) (dump_filename : String) : List Effect × Except PyError Bool :=
  match get_container env db_container_name with
  | Lookup.found c =>
      let r := env.execRes c.cname (pg_dump_cmd env)
      if r.1 != 0 then
        ([Effect.print "Dumping db...",
          Effect.execRun c.cname (pg_dump_cmd env),
          Effect.print "Error while dumping"], Except.ok false)
      else
        ([Effect.print "Dumping db...",
          Effect.execRun c.cname (pg_dump_cmd env),
          Effect.print "Db dumped    ",
          Effect.print s!"Writing dump to {dump_filename}...",
          Effect.writeFile dump_filename r.2,
          Effect.print s!"Dump written to {dump_filename}   "], Except.ok true)
  | _ =>
      ([Effect.print "Dumping db..."],
       Except.error (PyError.attributeError "exec_run"))

/-- `restore_db`: missing local file aborts before any runtime call; then the
backend container is stopped, the dump copied into the db container,
`pg_restore` executed, the backend container started again regardless of the
restore outcome, and only then failure reported if the exit was non-zero.
A falsy db lookup raises `AttributeError` at the `put_archive` call inside
`copy_to_container`, after the stop attempt and the copying print. -/
def restore_db (env : Env) (dump_filename : String) : List Effect × Except PyError Bool :=
  if env.isfile dump_filename = false then
    ([Effect.print s!"File \"{dump_filename}\" doesn\x27t exists!"], Except.ok false)
  else
    let lk := get_container env db_container_name
    let st := stop_container env django_container_name
    match lk with
    | Lookup.found c =>
        let r := env.execRes c.cname (pg_restore_cmd env dump_filename)
        let stt := start_container env django_container_name
        (st.1
          ++ [Effect.print "Copying file to container..."]
          ++ copy_to_container c dump_filename "/tmp"
          ++ [Effect.print "File copied to container    ",
              Effect.print "Restoring db...",
              Effect.execRun c.cname (pg_restore_cmd env dump_filename)]
          ++ (if r.1 = 0 then [Effect.print "Db restored    "] else [])
          ++ stt.1
          ++ (if r.1 != 0 then [Effect.print "Error while restoring"] else []),
         Except.ok (r.1 == 0))
    | _ =>
        (st.1 ++ [Effect.print "Copying file to container..."],
         Except.error (PyError.attributeError "put_archive"))

/-- `create_db`: exec `createdb` in the db container, report and return
`False` on non-zero exit, else `True`.  A falsy db lookup raises at the
`exec_run` call. -/
def create_db (env : Env) : List Effect × Except PyError Bool :=
  match get_container env db_container_name with
  | Lookup.found c =>
      let r := env.execRes c.cname (createdb_cmd env)
      if r.1 != 0 then
        ([Effect.print "Creating db...",
          Effect.execRun c.cname (createdb_cmd env),
          Effect.print "Error while creating db"], Except.ok false)
      else
        ([Effect.print "Creating db...",
          Effect.execRun c.cname (createdb_cmd env),
          Effect.print "Db re-created "], Except.ok true)
  | _ =>
      ([Effect.print "Creating db..."],
       Except.error (PyError.attributeError "exec_run"))

/-- `reset_db`: stop the backend container, exec `dropdb` (failure only
logged), then unconditionally `create_db` and restart the backend container;
return `False` exactly when the drop exit was non-zero, discarding the
`create_db` result.  A falsy db lookup raises at the `dropdb` exec call. -/
def reset_db (env : Env) : List Effect × Except PyError Bool :=
  let st := stop_container env django_container_name
  match get_container env db_container_name with
  | Lookup.found c =>
      let r := env.execRes c.cname (dropdb_cmd env)
      let cr := create_db env
      match cr.2 with
      | Except.error e =>
          (st.1
            ++ [Effect.print "Dropping db...",
                Effect.execRun c.cname (dropdb_cmd env)]
            ++ (if r.1 != 0 then [Effect.print "Error while dropping db"]
                else [Effect.print "Db dropped     "])
            ++ cr.1, Except.error e)
      | Except.ok _ =>
          let stt := start_container env django_container_name
          (st.1
            ++ [Effect.print "Dropping db...",
                Effect.execRun c.cname (dropdb_cmd env)]
            ++ (if r.1 != 0 then [Effect.print "Error while dropping db"]
                else [Effect.print "Db dropped     "])
            ++ cr.1 ++ stt.1, Except.ok (r.1 == 0))
  | _ =>
      (st.1 ++ [Effect.print "Dropping db..."],
       Except.error (PyError.attributeError "exec_run"))

/-- `reset_django`: delete the local migration files, reset the database,
then run the two framework migration subprocesses; no result beyond
exception propagation from `reset_db`. -/
def reset_django (env : Env) : List Effect × Except PyError Unit :=
  let d := delete_migrations env
  let r := reset_db env
  match r.2 with
  | Except.error e => (d ++ r.1, Except.error e)
  | Except.ok _ => (d ++ r.1 ++ django_migrate, Except.ok ())

/-- `print_usage`: the full usage catalogue, one print per line. -/
def print_usage : List Effect :=
  [Effect.print "Usage: python containers.py [action]",
   Effect.print "",
   Effect.print "Actions:",
   Effect.print "-h   --help                      Print help",
   Effect.print "build [?up]                      Build and eventually run containers",
   Effect.print "up                               Run containers",
   Effect.print "down                             Stop containers",
   Effect.print "shell [container_name]           Enter container\x27s shell",
   Effect.print "dump [?filename=\"db.dump\"]       Dump database",
   Effect.print "restore [filename]               Restore database from dump",
   Effect.print "resetdb                          Drop and re-create db",
   Effect.print "resetdjango                      Reset db and django migrations",
   Effect.print "manage [options]                 Run django manage.py"]

/-- `compose_build`: the `docker compose build` subprocess. -/
def compose_build : List Effect :=
  [Effect.subprocess "docker compose build"]

/-- `compose_up`: the `docker compose up -d` subprocess. -/
def compose_up : List Effect :=
  [Effect.subprocess "docker compose up -d"]

/-- `compose_down`: the `docker compose down` subprocess. -/
def compose_down : List Effect :=
  [Effect.subprocess "docker compose down"]

/-- `shell`: the interactive `docker exec ... sh` subprocess. -/
def shell (container_name : String) : List Effect :=
  [Effect.subprocess s!"docker exec -it {container_name} sh"]

/-- `manage`: forward an argument string to `manage.py` in the backend
container. -/
def manage (args : String) : List Effect :=
  [Effect.subprocess s!"docker exec -it backend /app/manage.py {args}"]

/-- Message printed by the running-stack gate for command `cmd`. -/
def runUpMsg (cmd : String) : String :=
  s!"Run \"python containers.py up\" before running {cmd}!"

/-- Message printed for an unrecognized command `cmd`. -/
def notFoundMsg (cmd : String) : String :=
  s!"Command {cmd} not found. Refer to the usage manual:"

/-- `main`: compute whether all services run, unconditionally delete the
local migration files, then dispatch on `sys.argv[1]` (`args.head`).
`build`/`up`/help bypass the running gate; every other branch, including the
unrecognized-command fallthrough, is guarded by it.  The `shell` branch
prints its argument-count complaints but still evaluates `sys.argv[2]`,
which raises `IndexError` when no container name was given.  (Named
`main_fn` because Lean reserves `main` for an `IO` entry point.) -/
def main_fn (env : Env) (args : List String) : List Effect × Except PyError Unit :=
  let containers_running := are_containers_running env
  let d := delete_migrations env
  match args with
  | [] => (d ++ print_usage, Except.ok ())
  | cmd :: rest =>
    if cmd == "-h" || cmd == "--help" || cmd == "help" then
      (d ++ print_usage, Except.ok ())
    else if cmd == "build" then
      (d ++ (compose_build ++
        (match rest with
         | a :: _ => if a == "up" then compose_up else []
         | [] => [])), Except.ok ())
    else if cmd == "up" then
      (d ++ compose_up, Except.ok ())
    else if containers_running = false then
      (d ++ [Effect.print (runUpMsg cmd)], Except.ok ())
    else if cmd == "shell" then
      let msgs :=
        (if rest.length < 1 then [Effect.print "Missing container name!"] else [])
          ++ (if rest.length > 1 then [Effect.print "Too many arguments!"] else [])
      match rest with
      | name2 :: _ => (d ++ (msgs ++ shell name2), Except.ok ())
      | [] => (d ++ msgs, Except.error PyError.indexError)
    else if cmd == "down" then
      (d ++ compose_down, Except.ok ())
    else if cmd == "dump" then
      match rest with
      | f :: _ =>
          let r := dump_db env f
          (d ++ r.1, r.2.map (fun _ => ()))
      | [] =>
          let r := dump_db env "db.dump"
          (d ++ r.1, r.2.map (fun _ => ()))
    else if cmd == "restore" then
      match rest with
      | [] => (d ++ [Effect.print "Missing filename of the dump to restore!"], Except.ok ())
      | [f] =>
          let r := restore_db env f
          (d ++ r.1, r.2.map (fun _ => ()))
      | _ :: _ :: _ => (d ++ [Effect.print "Too many arguments!"], Except.ok ())
    else if cmd == "resetdb" then
      let r := reset_db env
      (d ++ r.1, r.2.map (fun _ => ()))
    else if cmd == "resetdjango" then
      let r := reset_django env
      (d ++ r.1, r.2)
    else if cmd == "manage" then
      (d ++ manage (String.intercalate " " rest), Except.ok ())
    else
      (d ++ Effect.print (notFoundMsg cmd) :: print_usage, Except.ok ())

/-- True exactly for the effects that touch the container runtime
(stop, start, exec, file injection). -/
def Effect.isRuntimeCall : Effect → Bool
  | Effect.execRun _ _ => true
  | Effect.putArchive _ _ _ => true
  | Effect.start _ => true
  | Effect.stop _ => true
  | _ => false

/-- True exactly for the effect of creating/writing a local file. -/
def Effect.isWriteFile : Effect → Bool
  | Effect.writeFile _ _ => true
  | _ => false

/-- True exactly for subprocess invocations. -/
def Effect.isSubprocessCall : Effect → Bool
  | Effect.subprocess _ => true
  | _ => false

/-- The command names the dispatcher recognizes. -/
def recognizedCmd (c : String) : Bool :=
  c == "-h" || c == "--help" || c == "help" || c == "build" || c == "up" ||
  c == "shell" || c == "down" || c == "dump" || c == "restore" ||
  c == "resetdb" || c == "resetdjango" || c == "manage"

/-- The recognized commands that sit behind the running-stack gate. -/
def stackDependentCmd (c : String) : Bool :=
  c == "shell" || c == "down" || c == "dump" || c == "restore" ||
  c == "resetdb" || c == "resetdjango" || c == "manage"

/-- The db container handle used by the concrete test environments. -/
def containerDb : Container := { cname := "db", status := "running" }

/-- The backend container handle used by the concrete test environments. -/
def containerDj : Container := { cname := "backend", status := "running" }

/-- Concrete environment: both services declared and running, every tool
exits 0 with output bytes `[7, 8]`, every local file exists, one real
migration file plus the bootstrap `__init__.py` on disk. -/
def envUp : Env where
  services := ["db", "backend"]
  runtime := fun n =>
    if n == "db" then some containerDb
    else if n == "backend" then some containerDj
    else none
  execRes := fun _ _ => (0, [7, 8])
  isfile := fun _ => true
  migrationPy := ["backend/shop/migrations/0001_initial.py",
                  "backend/shop/migrations/__init__.py"]
  migrationPyc := []
  dbUser := "user"
  dbName := "shop"

/-- Like `envUp` but every tool run inside a container exits 1. -/
def envFail : Env where
  services := ["db", "backend"]
  runtime := fun n =>
    if n == "db" then some containerDb
    else if n == "backend" then some containerDj
    else none
  execRes := fun _ _ => (1, [])
  isfile := fun _ => true
  migrationPy := ["backend/shop/migrations/0001_initial.py",
                  "backend/shop/migrations/__init__.py"]
  migrationPyc := []
  dbUser := "user"
  dbName := "shop"

/-- Like `envUp` but the backend container is stopped, so the stack gate
fails. -/
def envDown : Env where
  services := ["db", "backend"]
  runtime := fun n =>
    if n == "db" then some containerDb
    else if n == "backend" then some { cname := "backend", status := "exited" }
    else none
  execRes := fun _ _ => (0, [7, 8])
  isfile := fun _ => true
  migrationPy := ["backend/shop/migrations/0001_initial.py",
                  "backend/shop/migrations/__init__.py"]
  migrationPyc := []
  dbUser := "user"
  dbName := "shop"

/-- Like `envUp` but no local file exists. -/
def envMissing : Env where
  services := ["db", "backend"]
  runtime := fun n =>
    if n == "db" then some containerDb
    else if n == "backend" then some containerDj
    else none
  execRes := fun _ _ => (0, [7, 8])
  isfile := fun _ => false
  migrationPy := []
  migrationPyc := []
  dbUser := "user"
  dbName := "shop"

/-- Like `envUp` but the `db` service is not declared in the compose
descriptor, so the db lookup yields the Python `False`. -/
def envNoDb : Env where
  services := ["backend"]
  runtime := fun n => if n == "backend" then some containerDj else none
  execRes := fun _ _ => (0, [7, 8])
  isfile := fun _ => true
  migrationPy := []
  migrationPyc := []
  dbUser := "user"
  dbName := "shop"

/-- C3: when the dump file does not exist locally, `restore_db` only prints
the missing-file message and returns `False`; in particular its trace holds
no container-runtime call (no stop, copy, exec or start). -/
theorem restore_missing_file_no_runtime_calls (env : Env) (f : String)
    (h : env.isfile f = false) :
    restore_db env f = ([Effect.print s!"File \"{f}\" doesn\x27t exists!"], Except.ok false)
  ∧ (restore_db env f).1.filter Effect.isRuntimeCall = [] := by
  refine ⟨by simp [restore_db, h], ?_⟩
  simp [restore_db, h, Effect.isRuntimeCall]

theorem restore_missing_file_no_runtime_calls_witness :
    envMissing.isfile "missing.dump" = false ∧
    (restore_db envMissing "missing.dump" =
      ([Effect.print "File \"missing.dump\" doesn\x27t exists!"], Except.ok false)
    ∧ (restore_db envMissing "missing.dump").1.filter Effect.isRuntimeCall = []) :=
  ⟨rfl, restore_missing_file_no_runtime_calls envMissing "missing.dump" rfl⟩

/-- C10: when the db lookup yields the Python `False` (service not declared)
or `None` (runtime has no such container), `dump_db`, `create_db`,
`reset_db` and `restore_db` (on an existing file) do not return the boolean
failure value: each raises `AttributeError` at its first container method
call (`exec_run` for the first three, `put_archive` for restore). -/
theorem db_lookup_failure_raises (env : Env) (f : String)
    (hf : env.isfile f = true)
    (hdb : get_container env db_container_name = Lookup.notDeclared ∨
           get_container env db_container_name = Lookup.notFound) :
    (dump_db env f).2 = Except.error (PyError.attributeError "exec_run")
  ∧ (create_db env).2 = Except.error (PyError.attributeError "exec_run")
  ∧ (reset_db env).2 = Except.error (PyError.attributeError "exec_run")
  ∧ (restore_db env f).2 = Except.error (PyError.attributeError "put_archive") := by
  rcases hdb with h | h <;>
    exact ⟨by simp [dump_db, h], by simp [create_db, h],
           by simp [reset_db, h], by simp [restore_db, h, hf]⟩

theorem db_lookup_failure_raises_witness :
    envNoDb.isfile "db.dump" = true ∧
    (get_container envNoDb db_container_name = Lookup.notDeclared ∨
     get_container envNoDb db_container_name = Lookup.notFound) ∧
    ((dump_db envNoDb "db.dump").2 = Except.error (PyError.attributeError "exec_run")
    ∧ (create_db envNoDb).2 = Except.error (PyError.attributeError "exec_run")
    ∧ (reset_db envNoDb).2 = Except.error (PyError.attributeError "exec_run")
    ∧ (restore_db envNoDb "db.dump").2 = Except.error (PyError.attributeError "put_archive")) :=
  ⟨rfl, Or.inl rfl, db_lookup_failure_raises envNoDb "db.dump" rfl (Or.inl rfl)⟩

/-- C8: on every invocation of the dispatcher, whatever the argument list —
including help, no arguments, unknown commands and the raising `shell`
path — the trace begins with the deletion of every matched local migration
file, before anything the dispatched command does. -/
theorem migrations_deleted_before_dispatch (env : Env) (args : List String) :
    (main_fn env args).1.take (delete_migrations env).length = delete_migrations env := by
  rcases args with _ | ⟨cmd, rest⟩
  · exact List.take_left ..
  · dsimp only [main_fn]
    by_cases h1 : (cmd == "-h" || cmd == "--help" || cmd == "help") = true
    · rw [if_pos h1]; exact List.take_left ..
    rw [if_neg h1]
    by_cases h2 : (cmd == "build") = true
    · rw [if_pos h2]; exact List.take_left ..
    rw [if_neg h2]
    by_cases h3 : (cmd == "up") = true
    · rw [if_pos h3]; exact List.take_left ..
    rw [if_neg h3]
    by_cases h4 : are_containers_running env = false
    · rw [if_pos h4]; exact List.take_left ..
    rw [if_neg h4]
    by_cases h5 : (cmd == "shell") = true
    · rw [if_pos h5]
      rcases rest with _ | ⟨n2, rest2⟩
      · exact List.take_left ..
      · exact List.take_left ..
    rw [if_neg h5]
    by_cases h6 : (cmd == "down") = true
    · rw [if_pos h6]; exact List.take_left ..
    rw [if_neg h6]
    by_cases h7 : (cmd == "dump") = true
    · rw [if_pos h7]
      rcases rest with _ | ⟨f, rest2⟩
      · exact List.take_left ..
      · exact List.take_left ..
    rw [if_neg h7]
    by_cases h8 : (cmd == "restore") = true
    · rw [if_pos h8]
      rcases rest with _ | ⟨f, _ | ⟨g, rest3⟩⟩
      · exact List.take_left ..
      · exact List.take_left ..
      · exact List.take_left ..
    rw [if_neg h8]
    by_cases h9 : (cmd == "resetdb") = true
    · rw [if_pos h9]; exact List.take_left ..
    rw [if_neg h9]
    by_cases h10 : (cmd == "resetdjango") = true
    · rw [if_pos h10]; exact List.take_left ..
    rw [if_neg h10]
    by_cases h11 : (cmd == "manage") = true
    · rw [if_pos h11]; exact List.take_left ..
    rw [if_neg h11]
    exact List.take_left ..

/-- C5: any stack-dependent command (shell, down, dump, restore, resetdb,
resetdjango, manage) invoked while not all declared services are running
only prints the run-up-first message after the unconditional migration
deletion: the command's own action contributes no effect. -/
theorem gate_blocks_stack_dependent_commands (env : Env) (cmd : String)
    (rest : List String)
    (hdep : stackDependentCmd cmd = true)
    (hrun : are_containers_running env = false) :
    main_fn env (cmd :: rest)
      = (delete_migrations env ++ [Effect.print (runUpMsg cmd)], Except.ok ()) := by
  simp only [stackDependentCmd, Bool.or_eq_true, beq_iff_eq] at hdep
  rcases hdep with ((((((h | h) | h) | h) | h) | h) | h) <;> subst h <;>
    simp [main_fn, hrun]

theorem gate_blocks_stack_dependent_commands_witness :
    stackDependentCmd "dump" = true ∧ are_containers_running envDown = false ∧
      main_fn envDown ["dump"]
        = (delete_migrations envDown ++ [Effect.print (runUpMsg "dump")], Except.ok ()) :=
  ⟨rfl, rfl, gate_blocks_stack_dependent_commands envDown "dump" [] rfl rfl⟩

/-- C2: with a resolvable db container and the stack running, `dump` without
an argument targets the literal filename `db.dump` and `dump f` targets `f`;
on exit 0 the captured bytes are written to that file, and on non-zero exit
`dump_db` returns `False` and its trace holds no file write at all. -/
theorem dump_writes_named_file (env : Env) (c : Container) (f : String)
    (hdb : get_container env db_container_name = Lookup.found c)
    (hrun : are_containers_running env = true) :
    (main_fn env ["dump"]).1 = delete_migrations env ++ (dump_db env "db.dump").1
  ∧ (main_fn env ["dump", f]).1 = delete_migrations env ++ (dump_db env f).1
  ∧ ((env.execRes c.cname (pg_dump_cmd env)).1 = 0 →
      Effect.writeFile "db.dump" (env.execRes c.cname (pg_dump_cmd env)).2
          ∈ (dump_db env "db.dump").1
    ∧ Effect.writeFile f (env.execRes c.cname (pg_dump_cmd env)).2 ∈ (dump_db env f).1
    ∧ (dump_db env f).2 = Except.ok true)
  ∧ ((env.execRes c.cname (pg_dump_cmd env)).1 ≠ 0 →
      (dump_db env f).2 = Except.ok false
    ∧ (dump_db env f).1.filter Effect.isWriteFile = []) := by
  refine ⟨by simp [main_fn, hrun], by simp [main_fn, hrun], ?_, ?_⟩
  · intro h0
    simp [dump_db, hdb, h0, Effect.isWriteFile]
  · intro hn
    have hb : ((env.execRes c.cname (pg_dump_cmd env)).1 != 0) = true := by
      simpa using hn
    simp [dump_db, hdb, hb, Effect.isWriteFile]

theorem dump_writes_named_file_witness :
    get_container envUp db_container_name = Lookup.found containerDb ∧
    are_containers_running envUp = true ∧
    ((main_fn envUp ["dump"]).1 = delete_migrations envUp ++ (dump_db envUp "db.dump").1
    ∧ (main_fn envUp ["dump", "custom.dump"]).1
        = delete_migrations envUp ++ (dump_db envUp "custom.dump").1
    ∧ ((envUp.execRes containerDb.cname (pg_dump_cmd envUp)).1 = 0 →
        Effect.writeFile "db.dump" (envUp.execRes containerDb.cname (pg_dump_cmd envUp)).2
            ∈ (dump_db envUp "db.dump").1
      ∧ Effect.writeFile "custom.dump" (envUp.execRes containerDb.cname (pg_dump_cmd envUp)).2
            ∈ (dump_db envUp "custom.dump").1
      ∧ (dump_db envUp "custom.dump").2 = Except.ok true)
    ∧ ((envUp.execRes containerDb.cname (pg_dump_cmd envUp)).1 ≠ 0 →
        (dump_db envUp "custom.dump").2 = Except.ok false
      ∧ (dump_db envUp "custom.dump").1.filter Effect.isWriteFile = [])) :=
  ⟨rfl, rfl, dump_writes_named_file envUp containerDb "custom.dump" rfl rfl⟩

/-- C7: with db and backend containers resolvable, a failing `dropdb` does
not short-circuit `reset_db`: the `createdb` exec and the backend restart
are always in the trace, and the result is `False` exactly when the drop
exit was non-zero. -/
theorem resetdb_create_and_restart_unconditional (env : Env) (cdb cdj : Container)
    (hdb : get_container env db_container_name = Lookup.found cdb)
    (hdj : get_container env django_container_name = Lookup.found cdj) :
    (reset_db env).2 = Except.ok ((env.execRes cdb.cname (dropdb_cmd env)).1 == 0)
  ∧ Effect.execRun cdb.cname (createdb_cmd env) ∈ (reset_db env).1
  ∧ Effect.start cdj.cname ∈ (reset_db env).1 := by
  by_cases hc : (env.execRes cdb.cname (createdb_cmd env)).1 = 0 <;>
  by_cases hd : (env.execRes cdb.cname (dropdb_cmd env)).1 = 0 <;>
    simp [reset_db, create_db, stop_container, start_container, hdb, hdj, hc, hd,
      bne_iff_ne]

theorem resetdb_create_and_restart_unconditional_witness :
    get_container envFail db_container_name = Lookup.found containerDb ∧
    get_container envFail django_container_name = Lookup.found containerDj ∧
    ((reset_db envFail).2
        = Except.ok ((envFail.execRes containerDb.cname (dropdb_cmd envFail)).1 == 0)
    ∧ Effect.execRun containerDb.cname (createdb_cmd envFail) ∈ (reset_db envFail).1
    ∧ Effect.start containerDj.cname ∈ (reset_db envFail).1) :=
  ⟨rfl, rfl, resetdb_create_and_restart_unconditional envFail containerDb containerDj rfl rfl⟩

/-- C4: when the dump file exists and both containers are resolvable,
`restore_db` stops the backend, copies the file, runs the import, and
always issues the backend start right after the import exec, whether or not
the import succeeded; the failure message and the `False` result come only
after that start.  The result is `True` exactly when the import exited 0. -/
theorem restore_always_restarts_backend (env : Env) (f : String) (cdb cdj : Container)
    (hf : env.isfile f = true)
    (hdb : get_container env db_container_name = Lookup.found cdb)
    (hdj : get_container env django_container_name = Lookup.found cdj) :
    (restore_db env f).2 = Except.ok ((env.execRes cdb.cname (pg_restore_cmd env f)).1 == 0)
  ∧ (restore_db env f).1 =
      [Effect.print s!"Stopping \"{django_container_name}\" container...",
       Effect.stop cdj.cname,
       Effect.print s!"\"{django_container_name}\" container stopped    ",
       Effect.print "Copying file to container...",
       Effect.putArchive cdb.cname "/tmp" f,
       Effect.print "File copied to container    ",
       Effect.print "Restoring db...",
       Effect.execRun cdb.cname (pg_restore_cmd env f)]
      ++ (if (env.execRes cdb.cname (pg_restore_cmd env f)).1 = 0
          then [Effect.print "Db restored    "] else [])
      ++ [Effect.print s!"Starting \"{django_container_name}\" container...",
          Effect.start cdj.cname,
          Effect.print s!"\"{django_container_name}\" container started    "]
      ++ (if (env.execRes cdb.cname (pg_restore_cmd env f)).1 = 0
          then [] else [Effect.print "Error while restoring"]) := by
  by_cases hr : (env.execRes cdb.cname (pg_restore_cmd env f)).1 = 0 <;>
    simp [restore_db, stop_container, start_container, copy_to_container,
      hf, hdb, hdj, hr, bne_iff_ne]

theorem restore_always_restarts_backend_witness :
    envFail.isfile "a.dump" = true ∧
    get_container envFail db_container_name = Lookup.found containerDb ∧
    get_container envFail django_container_name = Lookup.found containerDj ∧
    (restore_db envFail "a.dump").2 = Except.ok false ∧
    Effect.start containerDj.cname ∈ (restore_db envFail "a.dump").1 := by
  have h := restore_always_restarts_backend envFail "a.dump" containerDb containerDj rfl rfl rfl
  refine ⟨rfl, rfl, rfl, h.1, ?_⟩
  rw [h.2]
  decide

/-- C6: with both containers resolvable, `reset_django` performs exactly, in
order: the local migration-file deletions, the `reset_db` sequence (stop
backend, dropdb, createdb, start backend), then the migration-generation and
migration-application subprocesses. -/
theorem resetdjango_sequence (env : Env) (cdb cdj : Container)
    (hdb : get_container env db_container_name = Lookup.found cdb)
    (hdj : get_container env django_container_name = Lookup.found cdj) :
    reset_django env =
      ((migration_files env).map Effect.removeFile
        ++ ([Effect.print s!"Stopping \"{django_container_name}\" container...",
             Effect.stop cdj.cname,
             Effect.print s!"\"{django_container_name}\" container stopped    ",
             Effect.print "Dropping db...",
             Effect.execRun cdb.cname (dropdb_cmd env)]
          ++ (if (env.execRes cdb.cname (dropdb_cmd env)).1 = 0
              then [Effect.print "Db dropped     "]
              else [Effect.print "Error while dropping db"])
          ++ [Effect.print "Creating db...",
              Effect.execRun cdb.cname (createdb_cmd env)]
          ++ (if (env.execRes cdb.cname (createdb_cmd env)).1 = 0
              then [Effect.print "Db re-created "]
              else [Effect.print "Error while creating db"])
          ++ [Effect.print s!"Starting \"{django_container_name}\" container...",
              Effect.start cdj.cname,
              Effect.print s!"\"{django_container_name}\" container started    "])
        ++ django_migrate, Except.ok ()) := by
  by_cases hd : (env.execRes cdb.cname (dropdb_cmd env)).1 = 0 <;>
  by_cases hc : (env.execRes cdb.cname (createdb_cmd env)).1 = 0 <;>
    simp [reset_django, reset_db, create_db, delete_migrations, stop_container,
      start_container, hdb, hdj, hd, hc, bne_iff_ne]

theorem resetdjango_sequence_witness :
    get_container envUp db_container_name = Lookup.found containerDb ∧
    get_container envUp django_container_name = Lookup.found containerDj ∧
    reset_django envUp =
      ((migration_files envUp).map Effect.removeFile
        ++ ([Effect.print s!"Stopping \"{django_container_name}\" container...",
             Effect.stop containerDj.cname,
             Effect.print s!"\"{django_container_name}\" container stopped    ",
             Effect.print "Dropping db...",
             Effect.execRun containerDb.cname (dropdb_cmd envUp)]
          ++ (if (envUp.execRes containerDb.cname (dropdb_cmd envUp)).1 = 0
              then [Effect.print "Db dropped     "]
              else [Effect.print "Error while dropping db"])
          ++ [Effect.print "Creating db...",
              Effect.execRun containerDb.cname (createdb_cmd envUp)]
          ++ (if (envUp.execRes containerDb.cname (createdb_cmd envUp)).1 = 0
              then [Effect.print "Db re-created "]
              else [Effect.print "Error while creating db"])
          ++ [Effect.print s!"Starting \"{django_container_name}\" container...",
              Effect.start containerDj.cname,
              Effect.print s!"\"{django_container_name}\" container started    "])
        ++ django_migrate, Except.ok ()) :=
  ⟨rfl, rfl, resetdjango_sequence envUp containerDb containerDj rfl rfl⟩

/-- C1 counterexample: with the stack running and one generated migration
file on disk, the unrecognized command `frobnicate` does reach the
not-found message, but the invocation also removes the migration file — a
filesystem modification, contradicting the no-side-effect part of the
claim. -/
theorem unknown_cmd_side_effect_counterexample :
    Effect.print (notFoundMsg "frobnicate") ∈ (main_fn envUp ["frobnicate"]).1
  ∧ Effect.removeFile "backend/shop/migrations/0001_initial.py"
        ∈ (main_fn envUp ["frobnicate"]).1 := by
  decide

/-- C1 amended: for every command name outside the recognized set, when all
declared services are running, the dispatcher prints the not-found message
followed by the full usage catalogue; the trace shows no container-runtime
call and no subprocess, and its only filesystem effect is the pre-dispatch
migration-file deletion that every invocation performs. -/
theorem unknown_cmd_prints_usage (env : Env) (cmd : String) (rest : List String)
    (hcmd : recognizedCmd cmd = false)
    (hrun : are_containers_running env = true) :
    main_fn env (cmd :: rest)
      = (delete_migrations env ++ Effect.print (notFoundMsg cmd) :: print_usage,
         Except.ok ()) := by
  simp only [recognizedCmd, Bool.or_eq_false_iff, beq_eq_false_iff_ne, ne_eq] at hcmd
  obtain ⟨⟨⟨⟨⟨⟨⟨⟨⟨⟨⟨h1, h2⟩, h3⟩, h4⟩, h5⟩, h6⟩, h7⟩, h8⟩, h9⟩, h10⟩, h11⟩, h12⟩ := hcmd
  simp [main_fn, hrun, h1, h2, h3, h4, h5, h6, h7, h8, h9, h10, h11, h12]

theorem unknown_cmd_prints_usage_witness :
    recognizedCmd "frobni" = false ∧ are_containers_running envUp = true ∧
      main_fn envUp ["frobni"]
        = (delete_migrations envUp ++ Effect.print (notFoundMsg "frobni") :: print_usage,
           Except.ok ()) :=
  ⟨rfl, rfl, unknown_cmd_prints_usage envUp "frobni" [] rfl rfl⟩

/-- C9 failing input: with all declared services running (normal operation),
`shell` invoked with no container name prints the missing-name complaint and
then still evaluates `sys.argv[2]`, so an `IndexError` escapes to the top
level — the dispatcher does raise on this argument-count mismatch. -/
theorem shell_without_name_raises_index_error :
    are_containers_running envUp = true ∧
    main_fn envUp ["shell"]
      = (delete_migrations envUp ++ [Effect.print "Missing container name!"],
         Except.error PyError.indexError) := by
  refine ⟨rfl, ?_⟩
  rfl
